import Mathlib

/-!
Shallow embedding of the Avenue Fashion internal Paystack webhook handler
(src/app/api/webhooks/internal/paystack/route.ts).

The handler is a single async function `POST`.  We model it as a pure
function from the request data and the persisted store state to an
`Outcome`: the HTTP result (or an uncaught JavaScript exception escaping
the handler), the store state after the request, and the trace of store
and side-effect operations the handler attempted.

Modelling decisions, each traceable to the source:
- The HMAC-SHA256 primitive (`crypto.createHmac(...).digest('hex')`) is an
  external library call; the handler is parametric in it, so it appears as
  a function argument `hm : String → String → String` (secret, raw body →
  hex digest).  Every theorem quantifies over it.
- `JSON.parse(requestBody)` throws on malformed input, and this call sits
  OUTSIDE the try block (route.ts line 34), so a parse failure escapes the
  handler: `RequestBody.malformed` yields `HandlerResult.uncaughtException`.
- `const { status, metadata } = event.data` (line 38) also sits outside
  the try block; destructuring `undefined` throws, so a `charge.success`
  envelope without a `data` object yields `uncaughtException` as well.
- Inside the try block, `metadata.orderId` on an absent `metadata` throws
  a TypeError that IS caught, mapping to the 500 catch-all response.
- Absent JSON fields are `Option.none`; JavaScript's falsy test
  `!orderId` is true for `undefined` and for the empty string.
- `headersList.get` returns `null` when the header is absent; `null` is
  `!==` any string, so an absent signature is a mismatch.
- The store calls (`Order.findOne`, `order.save`, `Cart.findOne`,
  `cart.save`) and the notification call may fail; a `Faults` record says
  which succeed on this request.  A failing store call raises an exception
  caught by the try/catch (500); the notification call is wrapped in its
  own try/catch whose failure is swallowed, so the outcome never depends
  on `Faults.notifyOk`.  `connectDB` is connection-pool infrastructure and
  is not modelled.
- Mongoose documents are mutated in memory and persisted by `save`; we
  model persistence as replacing the first list element with the matching
  business key, and a `save` failure leaves the persisted state unchanged.
-/

namespace AvenueFashion

/-- One entry of an order's human-readable timeline
(`ITimelineEvent` in the source's types). -/
structure TimelineEntry where
  title : String
  description : String
  status : String
  timestamp : Nat
  deriving DecidableEq

/-- The `payment` subdocument of an order. -/
structure Payment where
  status : String
  transactionId : Option String
  deriving DecidableEq

/-- The Order aggregate (the fields the handler touches). -/
structure Order where
  orderId : String
  user : String
  payment : Payment
  status : String
  timeline : List TimelineEntry
  deriving DecidableEq

/-- The Cart aggregate; item identity is irrelevant to the handler,
which only ever replaces `items` with the empty list. -/
structure Cart where
  user : String
  items : List String
  deriving DecidableEq

/-- `event.data.metadata` as the handler reads it: only `orderId`,
which may be absent. -/
structure Metadata where
  orderId : Option String
  deriving DecidableEq

/-- `event.data` as the handler reads it; every field may be absent. -/
structure EventData where
  status : Option String
  metadata : Option Metadata
  reference : Option String
  deriving DecidableEq

/-- The parsed JSON envelope: `event.event` (the kind) and `event.data`. -/
structure PaystackEvent where
  event : Option String
  data : Option EventData
  deriving DecidableEq

/-- The raw request body together with what `JSON.parse` does to it. -/
inductive RequestBody where
  | malformed (raw : String)
  | wellFormed (raw : String) (ev : PaystackEvent)
  deriving DecidableEq

/-- The exact bytes the signature is computed over. -/
def RequestBody.raw : RequestBody → String
  | .malformed r => r
  | .wellFormed r _ => r

/-- The persisted state the handler can read and write. -/
structure DBState where
  orders : List Order
  carts : List Cart
  deriving DecidableEq

/-- Store and side-effect operations, in the order the handler attempts
them. -/
inductive StoreOp where
  | orderLookup (orderId : String)
  | orderSave (orderId : String)
  | notify (user : String)
  | cartLookup (user : String)
  | cartSave (user : String)
  deriving DecidableEq

/-- The distinct JSON bodies the handler can respond with. -/
inductive ResponseBody where
  | ok
  | configError
  | forbidden
  | missingOrderId
  | orderNotFound
  | serverError
  deriving DecidableEq

/-- An HTTP response: status code and body tag. -/
structure HttpResponse where
  status : Nat
  body : ResponseBody
  deriving DecidableEq

/-- Either a response produced by the handler, or an exception thrown
outside every try block, escaping the handler uncaught. -/
inductive HandlerResult where
  | response (r : HttpResponse)
  | uncaughtException
  deriving DecidableEq

/-- The complete observable outcome of one request. -/
structure Outcome where
  result : HandlerResult
  db : DBState
  ops : List StoreOp
  deriving DecidableEq

/-- Which of this request's fallible external calls succeed. -/
structure Faults where
  orderFindOk : Bool
  orderSaveOk : Bool
  cartFindOk : Bool
  cartSaveOk : Bool
  notifyOk : Bool
  deriving DecidableEq

/-- `order.timeline.find(e => e.title === 'Order Confirmed')` followed by
`confirmedEvent.status = 'completed'`: JavaScript's `find` returns the
FIRST match, and the mutation edits that one entry in place. -/
def markConfirmedCompleted : List TimelineEntry → List TimelineEntry
  | [] => []
  | e :: rest =>
    if e.title = "Order Confirmed" then
      { e with status := "completed" } :: rest
    else
      e :: markConfirmedCompleted rest

/-- The timeline entry pushed by the handler (route.ts lines 74-79). -/
def processingEntry (now : Nat) : TimelineEntry :=
  { title := "Processing"
    description := "We are preparing your items for shipment at the warehouse."
    status := "current"
    timestamp := now }

/-- The in-memory mutation of the order document
(route.ts lines 63-79). -/
def applyChargeSuccess (o : Order) (reference : Option String) (now : Nat) : Order :=
  { o with
    payment := { status := "Completed", transactionId := reference }
    status := "Processing"
    timeline := markConfirmedCompleted o.timeline ++ [processingEntry now] }

/-- Persisting `order.save()`: replace the first stored order with this
business key (the key `findOne` located the document by). -/
def saveOrderList : List Order → String → Order → List Order
  | [], _, _ => []
  | o :: rest, oId, newO =>
    if o.orderId = oId then newO :: rest
    else o :: saveOrderList rest oId newO

/-- Persisting `userCart.save()`: replace the first stored cart keyed by
this user. -/
def saveCartList : List Cart → String → Cart → List Cart
  | [], _, _ => []
  | c :: rest, user, newC =>
    if c.user = user then newC :: rest
    else c :: saveCartList rest user newC

/-- The tail of the success path: mutate the order, persist it, fire the
notification (failure swallowed), then clear the cart
(route.ts lines 63-110). -/
def applyAndPersist (o : Order) (reference : Option String) (oId : String)
    (faults : Faults) (now : Nat) (db : DBState) : Outcome :=
  let newO := applyChargeSuccess o reference now
  if faults.orderSaveOk = false then
    { result := .response ⟨500, .serverError⟩, db := db,
      ops := [.orderLookup oId, .orderSave oId] }
  else
    let db1 : DBState := { db with orders := saveOrderList db.orders oId newO }
    let ops1 : List StoreOp := [.orderLookup oId, .orderSave oId, .notify o.user]
    if faults.cartFindOk = false then
      { result := .response ⟨500, .serverError⟩, db := db1,
        ops := ops1 ++ [.cartLookup o.user] }
    else
      match db1.carts.find? (fun c => c.user == o.user) with
      | none =>
        { result := .response ⟨200, .ok⟩, db := db1,
          ops := ops1 ++ [.cartLookup o.user] }
      | some c =>
        if faults.cartSaveOk = false then
          { result := .response ⟨500, .serverError⟩, db := db1,
            ops := ops1 ++ [.cartLookup o.user, .cartSave o.user] }
        else
          { result := .response ⟨200, .ok⟩,
            db := { db1 with
                    carts := saveCartList db1.carts o.user { c with items := [] } },
            ops := ops1 ++ [.cartLookup o.user, .cartSave o.user] }

/-- The body of the try block for a relevant event (route.ts lines
41-111): read `metadata.orderId` (throws if `metadata` is absent, caught
as 500), reject falsy ids with 400, look the order up, apply the
idempotency guard, then mutate and persist. -/
def processCharge (d : EventData) (faults : Faults) (now : Nat) (db : DBState) : Outcome :=
  match d.metadata with
  | none =>
    { result := .response ⟨500, .serverError⟩, db := db, ops := [] }
  | some m =>
    match m.orderId with
    | none =>
      { result := .response ⟨400, .missingOrderId⟩, db := db, ops := [] }
    | some oId =>
      if oId = "" then
        { result := .response ⟨400, .missingOrderId⟩, db := db, ops := [] }
      else if faults.orderFindOk = false then
        { result := .response ⟨500, .serverError⟩, db := db, ops := [.orderLookup oId] }
      else
        match db.orders.find? (fun o => o.orderId == oId) with
        | none =>
          { result := .response ⟨404, .orderNotFound⟩, db := db, ops := [.orderLookup oId] }
        | some o =>
          if o.payment.status = "Completed" then
            { result := .response ⟨200, .ok⟩, db := db, ops := [.orderLookup oId] }
          else
            applyAndPersist o d.reference oId faults now db

/-- The whole handler `POST` (route.ts lines 16-116): missing secret →
500; signature mismatch (header absent included) → 403; `JSON.parse`
throws uncaught on malformed bodies; irrelevant events fall through to
the final 200 acknowledgement; for a `charge.success` envelope the
destructuring of `event.data` throws uncaught when `data` is absent. -/
def POST (hm : String → String → String) (secret : String)
    (signature : Option String) (body : RequestBody)
    (now : Nat) (faults : Faults) (db : DBState) : Outcome :=
  if secret = "" then
    { result := .response ⟨500, .configError⟩, db := db, ops := [] }
  else if signature ≠ some (hm secret body.raw) then
    { result := .response ⟨403, .forbidden⟩, db := db, ops := [] }
  else
    match body with
    | .malformed _ =>
      { result := .uncaughtException, db := db, ops := [] }
    | .wellFormed _ ev =>
      if ev.event = some "charge.success" then
        match ev.data with
        | none =>
          { result := .uncaughtException, db := db, ops := [] }
        | some d =>
          if d.status = some "success" then
            processCharge d faults now db
          else
            { result := .response ⟨200, .ok⟩, db := db, ops := [] }
      else
        { result := .response ⟨200, .ok⟩, db := db, ops := [] }

/-! ### Concrete fixtures used by witnesses and counterexamples -/

/-- A concrete stand-in for the HMAC primitive in closed statements. -/
def testHmac (secret raw : String) : String := secret ++ "#" ++ raw

/-- All external calls succeed. -/
def faultsOk : Faults := ⟨true, true, true, true, true⟩

/-- An empty store. -/
def dbEmpty : DBState := ⟨[], []⟩

/-- A well-formed `charge.success` envelope for order `oId` with
reference `r`. -/
def successEvent (oId r : String) : PaystackEvent :=
  ⟨some "charge.success", some ⟨some "success", some ⟨some oId⟩, some r⟩⟩

/-! ### Helper lemmas -/

/-- `applyChargeSuccess` never changes the business key. -/
theorem applyChargeSuccess_orderId (o : Order) (reference : Option String) (now : Nat) :
    (applyChargeSuccess o reference now).orderId = o.orderId := rfl

/-- A found order satisfies the lookup predicate. -/
theorem find?_orderId_eq {orders : List Order} {oId : String} {o : Order}
    (h : orders.find? (fun x => x.orderId == oId) = some o) :
    o.orderId = oId := by
  have := List.find?_some h
  simpa using this

/-- After replacing the first order keyed `oId`, looking `oId` up again
finds the replacement, provided something was found before and the
replacement keeps the key. -/
theorem find?_saveOrderList {orders : List Order} {oId : String} {o : Order}
    (newO : Order)
    (hfound : orders.find? (fun x => x.orderId == oId) = some o)
    (hnew : newO.orderId = oId) :
    (saveOrderList orders oId newO).find? (fun x => x.orderId == oId) = some newO := by
  induction orders with
  | nil => simp at hfound
  | cons a rest ih =>
    by_cases h : a.orderId = oId
    · rw [saveOrderList, if_pos h]
      exact List.find?_cons_of_pos _ (by simp [hnew])
    · have hfound' : rest.find? (fun x => x.orderId == oId) = some o := by
        rw [List.find?_cons_of_neg _ (by simp [h])] at hfound
        exact hfound
      rw [saveOrderList, if_neg h, List.find?_cons_of_neg _ (by simp [h])]
      exact ih hfound'

/-! ### C3: signature mismatch rejected with 403 and zero mutations -/

/-- C3: for every request body and every provided signature that is not
the HMAC of the raw body under the configured secret (absent header
included, as `signature = none`), the handler returns 403 and performs no
store operation and no state change. -/
theorem C3_bad_signature_rejected (hm : String → String → String) (secret : String)
    (signature : Option String) (body : RequestBody)
    (now : Nat) (faults : Faults) (db : DBState)
    (hsecret : secret ≠ "")
    (hsig : signature ≠ some (hm secret body.raw)) :
    POST hm secret signature body now faults db =
      { result := .response ⟨403, .forbidden⟩, db := db, ops := [] } := by
  rw [POST.eq_def, if_neg hsecret, if_pos hsig]

/-- C3 witness: a concrete wrong signature on a concrete body. -/
theorem C3_bad_signature_rejected_witness :
    POST testHmac "sec" (some "wrong") (.wellFormed "payload" (successEvent "ORD1" "TXN1"))
      0 faultsOk dbEmpty =
      { result := .response ⟨403, .forbidden⟩, db := dbEmpty, ops := [] } :=
  C3_bad_signature_rejected testHmac "sec" (some "wrong")
    (.wellFormed "payload" (successEvent "ORD1" "TXN1")) 0 faultsOk dbEmpty
    (by decide) (by decide)

/-! ### C5: missing or empty orderId rejected with 400 before the store -/

/-- C5: a correctly signed `charge.success`/`success` event whose
`metadata` object carries an absent or empty `orderId` yields 400 with no
store operation (in particular no order lookup) and no state change. -/
theorem C5_missing_orderId_rejected (hm : String → String → String)
    (secret raw : String) (oid : Option String) (ref : Option String)
    (now : Nat) (faults : Faults) (db : DBState)
    (hsecret : secret ≠ "")
    (hmissing : oid = none ∨ oid = some "") :
    POST hm secret (some (hm secret raw))
      (.wellFormed raw ⟨some "charge.success", some ⟨some "success", some ⟨oid⟩, ref⟩⟩)
      now faults db =
      { result := .response ⟨400, .missingOrderId⟩, db := db, ops := [] } := by
  rw [POST, if_neg hsecret, if_neg (by simp [RequestBody.raw])]
  rcases hmissing with h | h <;> subst h <;> simp [processCharge]

/-- C5 witness: concrete event with `orderId` set to the empty string. -/
theorem C5_missing_orderId_rejected_witness :
    POST testHmac "sec" (some (testHmac "sec" "payload"))
      (.wellFormed "payload" ⟨some "charge.success", some ⟨some "success", some ⟨some ""⟩, some "TXN1"⟩⟩)
      0 faultsOk dbEmpty =
      { result := .response ⟨400, .missingOrderId⟩, db := dbEmpty, ops := [] } :=
  C5_missing_orderId_rejected testHmac "sec" "payload" (some "") (some "TXN1")
    0 faultsOk dbEmpty (by decide) (Or.inr rfl)

/-! ### C6: irrelevant events are acknowledged without store interaction -/

/-- C6: a correctly signed event whose kind is not `charge.success`, or
whose `data` object exists but carries a nested status other than
`success`, causes no store interaction and returns 200 ok. -/
theorem C6_irrelevant_event_noop (hm : String → String → String)
    (secret raw : String) (ev : PaystackEvent)
    (now : Nat) (faults : Faults) (db : DBState)
    (hsecret : secret ≠ "")
    (hirr : ev.event ≠ some "charge.success" ∨
      ∃ d, ev.data = some d ∧ d.status ≠ some "success") :
    POST hm secret (some (hm secret raw)) (.wellFormed raw ev) now faults db =
      { result := .response ⟨200, .ok⟩, db := db, ops := [] } := by
  rw [POST, if_neg hsecret, if_neg (by simp [RequestBody.raw])]
  rcases hirr with h | ⟨d, hd, hs⟩
  · simp [h]
  · by_cases hk : ev.event = some "charge.success"
    · simp [hk, hd, hs]
    · simp [hk]

/-- C6 witness: a concrete `charge.failed` event. -/
theorem C6_irrelevant_event_noop_witness :
    POST testHmac "sec" (some (testHmac "sec" "payload"))
      (.wellFormed "payload" ⟨some "charge.failed", some ⟨some "failed", some ⟨some "ORD1"⟩, none⟩⟩)
      0 faultsOk dbEmpty =
      { result := .response ⟨200, .ok⟩, db := dbEmpty, ops := [] } :=
  C6_irrelevant_event_noop testHmac "sec" "payload"
    ⟨some "charge.failed", some ⟨some "failed", some ⟨some "ORD1"⟩, none⟩⟩
    0 faultsOk dbEmpty (by decide) (Or.inl (by decide))

/-! ### C7: malformed body — the parse failure escapes uncaught

The claim says the handler "responds with a client error status".  In the
source, `JSON.parse(requestBody)` sits at line 34, OUTSIDE the try block
that begins at line 41, so the exception propagates out of the handler:
no response of any kind is produced.  No mutation occurs, as claimed. -/

/-- C7 counterexample: a correctly signed malformed body makes the
handler end in an uncaught exception, not in any HTTP response — in
particular not in a client-error response. -/
theorem C7_counterexample :
    (POST testHmac "sec" (some (testHmac "sec" "not json")) (.malformed "not json")
      0 faultsOk dbEmpty).result = HandlerResult.uncaughtException := by decide

/-- C7 amended: for every correctly signed malformed body, the parse
failure is thrown before the try block, so the exception escapes the
handler uncaught (the handler itself produces no response, hence no
client-error status), and no store operation and no state mutation
occurs. -/
theorem C7_parse_failure_uncaught (hm : String → String → String)
    (secret raw : String) (now : Nat) (faults : Faults) (db : DBState)
    (hsecret : secret ≠ "") :
    POST hm secret (some (hm secret raw)) (.malformed raw) now faults db =
      { result := .uncaughtException, db := db, ops := [] } := by
  rw [POST, if_neg hsecret, if_neg (by simp [RequestBody.raw])]

/-- C7 witness: concrete malformed body. -/
theorem C7_parse_failure_uncaught_witness :
    POST testHmac "sec" (some (testHmac "sec" "oops")) (.malformed "oops")
      3 faultsOk dbEmpty =
      { result := .uncaughtException, db := dbEmpty, ops := [] } :=
  C7_parse_failure_uncaught testHmac "sec" "oops" 3 faultsOk dbEmpty (by decide)

/-! ### C10: `charge.success` envelope without a `data` object -/

/-- C10: a correctly signed `charge.success` envelope with no `data`
object makes the destructuring at line 38 — which precedes the try
block — throw, so the handler ends in an uncaught exception with no
structured error response, no store operation and no mutation. -/
theorem C10_missing_data_uncaught (hm : String → String → String)
    (secret raw : String) (now : Nat) (faults : Faults) (db : DBState)
    (hsecret : secret ≠ "") :
    POST hm secret (some (hm secret raw))
      (.wellFormed raw ⟨some "charge.success", none⟩) now faults db =
      { result := .uncaughtException, db := db, ops := [] } := by
  rw [POST, if_neg hsecret, if_neg (by simp [RequestBody.raw])]
  simp

/-- C10 witness: concrete `charge.success` envelope lacking `data`. -/
theorem C10_missing_data_uncaught_witness :
    POST testHmac "sec" (some (testHmac "sec" "payload"))
      (.wellFormed "payload" ⟨some "charge.success", none⟩) 0 faultsOk dbEmpty =
      { result := .uncaughtException, db := dbEmpty, ops := [] } :=
  C10_missing_data_uncaught testHmac "sec" "payload" 0 faultsOk dbEmpty (by decide)

/-! ### Success-path helper lemmas -/

/-- Reaching an order that is not yet `Completed` via a correctly signed
relevant event reduces the handler to `applyAndPersist`. -/
theorem POST_success_path (hm : String → String → String)
    (secret raw oId : String) (ref : Option String)
    (now : Nat) (faults : Faults) (db : DBState) (o : Order)
    (hsecret : secret ≠ "") (hoid : oId ≠ "")
    (hofind : faults.orderFindOk = true)
    (hfound : db.orders.find? (fun x => x.orderId == oId) = some o)
    (hnotdone : o.payment.status ≠ "Completed") :
    POST hm secret (some (hm secret raw))
      (.wellFormed raw ⟨some "charge.success", some ⟨some "success", some ⟨some oId⟩, ref⟩⟩)
      now faults db = applyAndPersist o ref oId faults now db := by
  rw [POST, if_neg hsecret, if_neg (by simp [RequestBody.raw])]
  simp [processCharge, hoid, hofind, hfound, hnotdone]

/-- Once `order.save()` has succeeded, the persisted orders hold the
mutated document whatever the cart path then does. -/
theorem applyAndPersist_orders (o : Order) (ref : Option String) (oId : String)
    (faults : Faults) (now : Nat) (db : DBState)
    (hosave : faults.orderSaveOk = true) :
    (applyAndPersist o ref oId faults now db).db.orders =
      saveOrderList db.orders oId (applyChargeSuccess o ref now) := by
  rw [applyAndPersist]
  simp only [hosave]
  rw [if_neg (show ¬(true = false) by simp)]
  split
  · rfl
  · split
    · rfl
    · split <;> rfl

/-- With every external call succeeding, the success path answers 200 ok. -/
theorem applyAndPersist_result_ok (o : Order) (ref : Option String) (oId : String)
    (faults : Faults) (now : Nat) (db : DBState)
    (hosave : faults.orderSaveOk = true) (hcfind : faults.cartFindOk = true)
    (hcsave : faults.cartSaveOk = true) :
    (applyAndPersist o ref oId faults now db).result = .response ⟨200, .ok⟩ := by
  rw [applyAndPersist]
  simp only [hosave, hcfind, hcsave]
  rcases h : db.carts.find? (fun c => c.user == o.user) with _ | c <;> simp [h]

/-- A failing cart lookup, or a failing cart save when a cart exists,
turns the request into a 500 even though the order was saved. -/
theorem applyAndPersist_result_500 (o : Order) (ref : Option String) (oId : String)
    (faults : Faults) (now : Nat) (db : DBState)
    (hosave : faults.orderSaveOk = true)
    (hcart : faults.cartFindOk = false ∨
      (faults.cartSaveOk = false ∧
        (db.carts.find? (fun c => c.user == o.user)).isSome = true)) :
    (applyAndPersist o ref oId faults now db).result = .response ⟨500, .serverError⟩ := by
  rw [applyAndPersist]
  simp only [hosave]
  rcases hcart with hcf | ⟨hcs, hsome⟩
  · simp [hcf]
  · by_cases hcf : faults.cartFindOk = false
    · simp [hcf]
    · obtain ⟨c, hc⟩ := Option.isSome_iff_exists.mp hsome
      simp [hcf, hc, hcs]

/-! ### C1: already-completed orders are acknowledged without any effect -/

/-- C1: when the looked-up order already has `payment.status =
Completed`, a correctly signed `charge.success`/`success` event changes
nothing — state identical, the only store interaction is the lookup, so
no save, no notification, no cart clearing — and returns 200 ok; hence
running the same request again from the resulting state reproduces the
same outcome, i.e. twice equals once. -/
theorem C1_already_completed_noop (hm : String → String → String)
    (secret raw oId : String) (ref : Option String)
    (now : Nat) (faults : Faults) (db : DBState) (o : Order)
    (hsecret : secret ≠ "") (hoid : oId ≠ "")
    (hofind : faults.orderFindOk = true)
    (hfound : db.orders.find? (fun x => x.orderId == oId) = some o)
    (hdone : o.payment.status = "Completed") :
    POST hm secret (some (hm secret raw))
      (.wellFormed raw ⟨some "charge.success", some ⟨some "success", some ⟨some oId⟩, ref⟩⟩)
      now faults db =
      { result := .response ⟨200, .ok⟩, db := db, ops := [.orderLookup oId] } ∧
    POST hm secret (some (hm secret raw))
      (.wellFormed raw ⟨some "charge.success", some ⟨some "success", some ⟨some oId⟩, ref⟩⟩)
      now faults
      (POST hm secret (some (hm secret raw))
        (.wellFormed raw ⟨some "charge.success", some ⟨some "success", some ⟨some oId⟩, ref⟩⟩)
        now faults db).db =
    POST hm secret (some (hm secret raw))
      (.wellFormed raw ⟨some "charge.success", some ⟨some "success", some ⟨some oId⟩, ref⟩⟩)
      now faults db := by
  have h1 : POST hm secret (some (hm secret raw))
      (.wellFormed raw ⟨some "charge.success", some ⟨some "success", some ⟨some oId⟩, ref⟩⟩)
      now faults db =
      { result := .response ⟨200, .ok⟩, db := db, ops := [.orderLookup oId] } := by
    rw [POST, if_neg hsecret, if_neg (by simp [RequestBody.raw])]
    simp [processCharge, hoid, hofind, hfound, hdone]
  refine ⟨h1, ?_⟩
  rw [h1]
  exact h1

/-- An order whose payment is already settled, with a non-empty cart
still present, for the C1 witness. -/
def doneOrder : Order :=
  { orderId := "ORD1", user := "u1",
    payment := { status := "Completed", transactionId := some "TXN0" },
    status := "Processing",
    timeline := [⟨"Order Confirmed", "placed", "completed", 0⟩,
                 ⟨"Processing", "at the warehouse", "current", 1⟩] }

/-- Store for the C1 witness. -/
def dbDone : DBState := { orders := [doneOrder], carts := [⟨"u1", ["sku1"]⟩] }

/-- C1 witness: a concrete redelivery to an already-completed order. -/
theorem C1_already_completed_noop_witness :
    POST testHmac "sec" (some (testHmac "sec" "payload"))
      (.wellFormed "payload" ⟨some "charge.success", some ⟨some "success", some ⟨some "ORD1"⟩, some "TXN1"⟩⟩)
      7 faultsOk dbDone =
      { result := .response ⟨200, .ok⟩, db := dbDone, ops := [.orderLookup "ORD1"] } ∧
    POST testHmac "sec" (some (testHmac "sec" "payload"))
      (.wellFormed "payload" ⟨some "charge.success", some ⟨some "success", some ⟨some "ORD1"⟩, some "TXN1"⟩⟩)
      7 faultsOk
      (POST testHmac "sec" (some (testHmac "sec" "payload"))
        (.wellFormed "payload" ⟨some "charge.success", some ⟨some "success", some ⟨some "ORD1"⟩, some "TXN1"⟩⟩)
        7 faultsOk dbDone).db =
    POST testHmac "sec" (some (testHmac "sec" "payload"))
      (.wellFormed "payload" ⟨some "charge.success", some ⟨some "success", some ⟨some "ORD1"⟩, some "TXN1"⟩⟩)
      7 faultsOk dbDone :=
  C1_already_completed_noop testHmac "sec" "payload" "ORD1" (some "TXN1")
    7 faultsOk dbDone doneOrder (by decide) (by decide) rfl (by decide) rfl

/-! ### C2: first application of a charge.success event -/

/-- C2: for an order found by id and not yet `Completed`, a correctly
signed `charge.success`/`success` event with reference `r` (all store
calls succeeding; the notification outcome is irrelevant) answers 200 ok
and persists the order with `payment.status = Completed`,
`payment.transactionId = r`, `status = Processing`, the first
`Order Confirmed` timeline entry (if present) marked `completed`, and
exactly one new entry — the `current` `Processing` entry with the fixed
warehouse text and the current timestamp — appended. -/
theorem C2_first_application (hm : String → String → String)
    (secret raw oId r : String)
    (now : Nat) (faults : Faults) (db : DBState) (o : Order)
    (hsecret : secret ≠ "") (hoid : oId ≠ "")
    (hofind : faults.orderFindOk = true) (hosave : faults.orderSaveOk = true)
    (hcfind : faults.cartFindOk = true) (hcsave : faults.cartSaveOk = true)
    (hfound : db.orders.find? (fun x => x.orderId == oId) = some o)
    (hnotdone : o.payment.status ≠ "Completed") :
    (POST hm secret (some (hm secret raw))
      (.wellFormed raw ⟨some "charge.success", some ⟨some "success", some ⟨some oId⟩, some r⟩⟩)
      now faults db).result = .response ⟨200, .ok⟩ ∧
    (POST hm secret (some (hm secret raw))
      (.wellFormed raw ⟨some "charge.success", some ⟨some "success", some ⟨some oId⟩, some r⟩⟩)
      now faults db).db.orders.find? (fun x => x.orderId == oId) =
      some { o with
        payment := { status := "Completed", transactionId := some r }
        status := "Processing"
        timeline := markConfirmedCompleted o.timeline ++ [processingEntry now] } := by
  have hstep := POST_success_path hm secret raw oId (some r) now faults db o
    hsecret hoid hofind hfound hnotdone
  rw [hstep]
  refine ⟨applyAndPersist_result_ok o (some r) oId faults now db hosave hcfind hcsave, ?_⟩
  rw [applyAndPersist_orders o (some r) oId faults now db hosave]
  exact find?_saveOrderList _ hfound
    ((applyChargeSuccess_orderId o (some r) now).trans (find?_orderId_eq hfound))

/-- A freshly confirmed, still-pending order for the C2 witness. -/
def pendingOrder : Order :=
  { orderId := "ORD1", user := "u1",
    payment := { status := "Pending", transactionId := none },
    status := "Confirmed",
    timeline := [⟨"Order Confirmed", "placed", "current", 0⟩] }

/-- Store for the C2 witness. -/
def dbPending : DBState := { orders := [pendingOrder], carts := [⟨"u1", ["sku1"]⟩] }

/-- C2 witness: concrete first application. -/
theorem C2_first_application_witness :
    (POST testHmac "sec" (some (testHmac "sec" "payload"))
      (.wellFormed "payload" ⟨some "charge.success", some ⟨some "success", some ⟨some "ORD1"⟩, some "TXN1"⟩⟩)
      9 faultsOk dbPending).result = .response ⟨200, .ok⟩ ∧
    (POST testHmac "sec" (some (testHmac "sec" "payload"))
      (.wellFormed "payload" ⟨some "charge.success", some ⟨some "success", some ⟨some "ORD1"⟩, some "TXN1"⟩⟩)
      9 faultsOk dbPending).db.orders.find? (fun x => x.orderId == "ORD1") =
      some { pendingOrder with
        payment := { status := "Completed", transactionId := some "TXN1" }
        status := "Processing"
        timeline := markConfirmedCompleted pendingOrder.timeline ++ [processingEntry 9] } :=
  C2_first_application testHmac "sec" "payload" "ORD1" "TXN1"
    9 faultsOk dbPending pendingOrder (by decide) (by decide) rfl rfl rfl rfl
    (by decide) (by decide)

/-! ### C9: cart failure after the order was persisted -/

/-- C9: when the order lookup and `order.save()` succeed but the cart
lookup fails — or a cart exists and its save fails — the handler answers
500 even though the mutated order (payment `Completed`) is already
durably persisted; a 500 therefore does not imply the order is
unchanged. -/
theorem C9_cart_failure_after_persist (hm : String → String → String)
    (secret raw oId : String) (ref : Option String)
    (now : Nat) (faults : Faults) (db : DBState) (o : Order)
    (hsecret : secret ≠ "") (hoid : oId ≠ "")
    (hofind : faults.orderFindOk = true) (hosave : faults.orderSaveOk = true)
    (hfound : db.orders.find? (fun x => x.orderId == oId) = some o)
    (hnotdone : o.payment.status ≠ "Completed")
    (hcart : faults.cartFindOk = false ∨
      (faults.cartSaveOk = false ∧
        (db.carts.find? (fun c => c.user == o.user)).isSome = true)) :
    (POST hm secret (some (hm secret raw))
      (.wellFormed raw ⟨some "charge.success", some ⟨some "success", some ⟨some oId⟩, ref⟩⟩)
      now faults db).result = .response ⟨500, .serverError⟩ ∧
    (POST hm secret (some (hm secret raw))
      (.wellFormed raw ⟨some "charge.success", some ⟨some "success", some ⟨some oId⟩, ref⟩⟩)
      now faults db).db.orders.find? (fun x => x.orderId == oId) =
      some (applyChargeSuccess o ref now) := by
  have hstep := POST_success_path hm secret raw oId ref now faults db o
    hsecret hoid hofind hfound hnotdone
  rw [hstep]
  refine ⟨applyAndPersist_result_500 o ref oId faults now db hosave hcart, ?_⟩
  rw [applyAndPersist_orders o ref oId faults now db hosave]
  exact find?_saveOrderList _ hfound
    ((applyChargeSuccess_orderId o ref now).trans (find?_orderId_eq hfound))

/-- Fault pattern for the C9 witness: the cart lookup raises. -/
def faultsCartFindFails : Faults := ⟨true, true, false, true, true⟩

/-- C9 witness: concrete cart-lookup failure after a successful order
save. -/
theorem C9_cart_failure_after_persist_witness :
    (POST testHmac "sec" (some (testHmac "sec" "payload"))
      (.wellFormed "payload" ⟨some "charge.success", some ⟨some "success", some ⟨some "ORD1"⟩, some "TXN1"⟩⟩)
      9 faultsCartFindFails dbPending).result = .response ⟨500, .serverError⟩ ∧
    (POST testHmac "sec" (some (testHmac "sec" "payload"))
      (.wellFormed "payload" ⟨some "charge.success", some ⟨some "success", some ⟨some "ORD1"⟩, some "TXN1"⟩⟩)
      9 faultsCartFindFails dbPending).db.orders.find? (fun x => x.orderId == "ORD1") =
      some (applyChargeSuccess pendingOrder (some "TXN1") 9) :=
  C9_cart_failure_after_persist testHmac "sec" "payload" "ORD1" (some "TXN1")
    9 faultsCartFindFails dbPending pendingOrder (by decide) (by decide) rfl rfl
    (by decide) (by decide) (Or.inl rfl)

/-! ### C4: the timeline invariant

The claim asserts the invariant "for every pre-existing timeline content
of the order".  The code patches only the FIRST entry titled
`Order Confirmed` and appends its `current` entry unconditionally, so a
pre-existing `current` entry under any other title survives and the
post-state carries two `current` entries. -/

/-- An order whose timeline already carries a `current` entry under a
different title, refuting the unrestricted C4 invariant. -/
def strayCurrentOrder : Order :=
  { orderId := "ORD1", user := "u1",
    payment := { status := "Pending", transactionId := none },
    status := "Confirmed",
    timeline := [⟨"Shipped", "on the way", "current", 0⟩] }

/-- C4 counterexample: after the first successful application to
`strayCurrentOrder`, the stored order's timeline carries TWO entries
with `status = current`, not exactly one. -/
theorem C4_counterexample :
    ((POST testHmac "sec" (some (testHmac "sec" "payload"))
        (.wellFormed "payload" ⟨some "charge.success", some ⟨some "success", some ⟨some "ORD1"⟩, some "TXN1"⟩⟩)
        3 faultsOk { orders := [strayCurrentOrder], carts := [] }).db.orders.map
      (fun o => o.timeline.countP (fun e => e.status == "current"))) = [2] := by
  decide

/-- Dropping the head of a list cannot raise a `countP` bound. -/
theorem countP_le_of_cons {p : TimelineEntry → Bool} {a : TimelineEntry}
    {l : List TimelineEntry} {n : Nat}
    (h : (a :: l).countP p ≤ n) : l.countP p ≤ n :=
  le_trans (by rw [List.countP_cons]; exact Nat.le_add_right _ _) h

/-- If the head is an `Order Confirmed` entry and the whole list holds at
most one, the tail holds none. -/
theorem countP_rest_zero {a : TimelineEntry} {l : List TimelineEntry}
    (ha : a.title = "Order Confirmed")
    (h : (a :: l).countP (fun e => e.title == "Order Confirmed") ≤ 1) :
    l.countP (fun e => e.title == "Order Confirmed") = 0 := by
  rw [List.countP_cons] at h
  simp only [ha, beq_self_eq_true, if_pos] at h
  omega

/-- If every `current` entry of the timeline is titled `Order Confirmed`
and at most one entry carries that title, then after the in-place patch
no entry is `current` any more. -/
theorem markConfirmedCompleted_no_current (tl : List TimelineEntry)
    (h1 : ∀ e ∈ tl, e.status = "current" → e.title = "Order Confirmed")
    (h2 : tl.countP (fun e => e.title == "Order Confirmed") ≤ 1) :
    ∀ e ∈ markConfirmedCompleted tl, e.status ≠ "current" := by
  induction tl with
  | nil => intro e he; simp [markConfirmedCompleted] at he
  | cons a rest ih =>
    intro e he
    by_cases ha : a.title = "Order Confirmed"
    · rw [markConfirmedCompleted, if_pos ha] at he
      rcases List.mem_cons.mp he with rfl | hrest
      · simp
      · intro hcur
        have hOC := h1 e (List.mem_cons_of_mem _ hrest) hcur
        have hzero := countP_rest_zero ha h2
        have := List.countP_eq_zero.mp hzero e hrest
        simp [hOC] at this
    · rw [markConfirmedCompleted, if_neg ha] at he
      rcases List.mem_cons.mp he with rfl | hrest
      · intro hcur
        exact ha (h1 e (List.mem_cons_self _ _) hcur)
      · exact ih (fun x hx => h1 x (List.mem_cons_of_mem _ hx))
          (countP_le_of_cons h2) e hrest

/-- If at most one entry carries the `Order Confirmed` title, every
`Order Confirmed` entry of the patched timeline is `completed`. -/
theorem markConfirmedCompleted_confirmed_done (tl : List TimelineEntry)
    (h2 : tl.countP (fun e => e.title == "Order Confirmed") ≤ 1) :
    ∀ e ∈ markConfirmedCompleted tl, e.title = "Order Confirmed" →
      e.status = "completed" := by
  induction tl with
  | nil => intro e he; simp [markConfirmedCompleted] at he
  | cons a rest ih =>
    intro e he htitle
    by_cases ha : a.title = "Order Confirmed"
    · rw [markConfirmedCompleted, if_pos ha] at he
      rcases List.mem_cons.mp he with rfl | hrest
      · rfl
      · have hzero := countP_rest_zero ha h2
        have := List.countP_eq_zero.mp hzero e hrest
        simp [htitle] at this
    · rw [markConfirmedCompleted, if_neg ha] at he
      rcases List.mem_cons.mp he with rfl | hrest
      · exact absurd htitle ha
      · exact ih (countP_le_of_cons h2) e hrest htitle

/-- C4 amended: the invariant holds for every pre-existing timeline in
which the only `current` entries (if any) are titled `Order Confirmed`
and at most one entry carries that title (in particular for the standard
creation-time timeline): after the first successful application, exactly
one stored timeline entry is `current`, it is the newly appended
`Processing` entry sitting at the end, and every `Order Confirmed` entry
is `completed`. -/
theorem C4_amended_timeline_invariant (hm : String → String → String)
    (secret raw oId r : String)
    (now : Nat) (faults : Faults) (db : DBState) (o : Order)
    (hsecret : secret ≠ "") (hoid : oId ≠ "")
    (hofind : faults.orderFindOk = true) (hosave : faults.orderSaveOk = true)
    (hcfind : faults.cartFindOk = true) (hcsave : faults.cartSaveOk = true)
    (hfound : db.orders.find? (fun x => x.orderId == oId) = some o)
    (hnotdone : o.payment.status ≠ "Completed")
    (hcur : ∀ e ∈ o.timeline, e.status = "current" → e.title = "Order Confirmed")
    (honce : o.timeline.countP (fun e => e.title == "Order Confirmed") ≤ 1) :
    (POST hm secret (some (hm secret raw))
      (.wellFormed raw ⟨some "charge.success", some ⟨some "success", some ⟨some oId⟩, some r⟩⟩)
      now faults db).result = .response ⟨200, .ok⟩ ∧
    ∃ o', (POST hm secret (some (hm secret raw))
        (.wellFormed raw ⟨some "charge.success", some ⟨some "success", some ⟨some oId⟩, some r⟩⟩)
        now faults db).db.orders.find? (fun x => x.orderId == oId) = some o' ∧
      o'.timeline.countP (fun e => e.status == "current") = 1 ∧
      o'.timeline.getLast? = some (processingEntry now) ∧
      (∀ e ∈ o'.timeline, e.status = "current" → e = processingEntry now) ∧
      (∀ e ∈ o'.timeline, e.title = "Order Confirmed" → e.status = "completed") := by
  have hstep := POST_success_path hm secret raw oId (some r) now faults db o
    hsecret hoid hofind hfound hnotdone
  refine ⟨?_, applyChargeSuccess o (some r) now, ?_, ?_, ?_, ?_, ?_⟩
  · rw [hstep]
    exact applyAndPersist_result_ok o (some r) oId faults now db hosave hcfind hcsave
  · rw [hstep, applyAndPersist_orders o (some r) oId faults now db hosave]
    exact find?_saveOrderList _ hfound
      ((applyChargeSuccess_orderId o (some r) now).trans (find?_orderId_eq hfound))
  · show ((markConfirmedCompleted o.timeline ++ [processingEntry now]).countP
      (fun e => e.status == "current")) = 1
    rw [List.countP_append]
    have hzero : (markConfirmedCompleted o.timeline).countP
        (fun e => e.status == "current") = 0 := by
      apply List.countP_eq_zero.mpr
      intro e he
      have := markConfirmedCompleted_no_current o.timeline hcur honce e he
      simpa using this
    rw [hzero]
    rfl
  · show ((markConfirmedCompleted o.timeline ++ [processingEntry now]).getLast?
      = some (processingEntry now))
    simp
  · show ∀ e ∈ markConfirmedCompleted o.timeline ++ [processingEntry now],
      e.status = "current" → e = processingEntry now
    intro e he hestat
    rcases List.mem_append.mp he with hmem | hmem
    · exact absurd hestat
        (markConfirmedCompleted_no_current o.timeline hcur honce e hmem)
    · simpa using hmem
  · show ∀ e ∈ markConfirmedCompleted o.timeline ++ [processingEntry now],
      e.title = "Order Confirmed" → e.status = "completed"
    intro e he htitle
    rcases List.mem_append.mp he with hmem | hmem
    · exact markConfirmedCompleted_confirmed_done o.timeline honce e hmem htitle
    · rw [List.mem_singleton.mp hmem] at htitle
      exact absurd htitle (by simp [processingEntry])

/-- C4 amended witness: the standard creation-time timeline, one
`Order Confirmed` entry that is `current`. -/
theorem C4_amended_timeline_invariant_witness :
    (POST testHmac "sec" (some (testHmac "sec" "payload"))
      (.wellFormed "payload" ⟨some "charge.success", some ⟨some "success", some ⟨some "ORD1"⟩, some "TXN1"⟩⟩)
      9 faultsOk dbPending).result = .response ⟨200, .ok⟩ ∧
    ∃ o', (POST testHmac "sec" (some (testHmac "sec" "payload"))
        (.wellFormed "payload" ⟨some "charge.success", some ⟨some "success", some ⟨some "ORD1"⟩, some "TXN1"⟩⟩)
        9 faultsOk dbPending).db.orders.find? (fun x => x.orderId == "ORD1") = some o' ∧
      o'.timeline.countP (fun e => e.status == "current") = 1 ∧
      o'.timeline.getLast? = some (processingEntry 9) ∧
      (∀ e ∈ o'.timeline, e.status = "current" → e = processingEntry 9) ∧
      (∀ e ∈ o'.timeline, e.title = "Order Confirmed" → e.status = "completed") :=
  C4_amended_timeline_invariant testHmac "sec" "payload" "ORD1" "TXN1"
    9 faultsOk dbPending pendingOrder (by decide) (by decide) rfl rfl rfl rfl
    (by decide) (by decide) (by decide) (by decide)

end AvenueFashion
